import Mathlib

/-!
Verification of the GPSMapCamera WebSocket Connection Manager
(`src/context/WebSocketContext.tsx`) against its specification.

The component is an event-driven connection manager.  We embed it shallowly:
the React `useState` cells become fields of an explicit `MState` record, each
handler (`connect`, `disconnect`, `send`, the Transport callbacks `onopen`,
`onclose`, `onmessage`, and the reconnect scheduler) becomes a pure function
from state to state paired with the list of observable effects it performs
(Transport opens/writes/closes, timer scheduling and cancellation, logging,
listener invocation).  State updates are taken to apply immediately
(explicit state passing), machine numbers are modelled as `ℚ`, and JSON
values as an inductive type.
-/

namespace GPSMapCamera

/-- JSON values, as produced by `JSON.parse` / consumed by `JSON.stringify`.
Numbers are modelled as rationals; objects are ordered key-value lists. -/
inductive JValue where
  | str (s : String)
  | num (q : ℚ)
  | jbool (b : Bool)
  | jnull
  | obj (fields : List (String × JValue))
  | arr (elems : List JValue)

/-- A JavaScript object: ordered fields, unique keys maintained by `setKey`. -/
abbrev JObj := List (String × JValue)

/-- Assignment of a property on a JS object: if the key is present its value
is replaced in place (keeping its position); otherwise the new key-value pair
is appended.  This is JavaScript object-literal semantics, where a later
duplicate key overwrites the value of an earlier one. -/
def setKey : JObj → String → JValue → JObj
  | [], k, v => [(k, v)]
  | (k', v') :: rest, k, v =>
      if k' = k then (k, v) :: rest else (k', v') :: setKey rest k v

/-- Property lookup on a JS object (first binding, which is the only binding
for objects built with `setKey`). -/
def jLookup : JObj → String → Option JValue
  | [], _ => none
  | (k', v) :: rest, k => if k' = k then some v else jLookup rest k

/-- Last binding of a key in a raw key-value list (for a list with duplicate
keys, the one that survives a JS object-literal spread). -/
def jLookupLast : JObj → String → Option JValue
  | [], _ => none
  | (k', v) :: rest, k =>
      match jLookupLast rest k with
      | some w => some w
      | none => if k' = k then some v else none

/-- Spread (`{...base, ...data}`-style) of `data` onto `base`: each field of
`data` is assigned onto the accumulator in order. -/
def spreadOnto (base : JObj) (data : JObj) : JObj :=
  data.foldl (fun acc p => setKey acc p.1 p.2) base

/-- The outbound message envelope built by `send`:
`JSON.stringify({ type, ...data, timestamp: new Date().toISOString() })` —
the `type` field first, then the payload fields spread flat, then the
`timestamp` field assigned last. -/
def mkEnvelope (t : String) (data : JObj) (ts : String) : JObj :=
  setKey (spreadOnto [("type", JValue.str t)] data) "timestamp" (JValue.str ts)

/-- A civil date-time with millisecond precision, the content of a JS `Date`
(UTC fields). -/
structure JSDate where
  year : Nat
  month : Nat
  day : Nat
  hour : Nat
  minute : Nat
  second : Nat
  ms : Nat

/-- The decimal digit character for `n % 10`. -/
def digitChar (n : Nat) : Char := Char.ofNat (48 + n % 10)

/-- Two-digit zero-padded decimal rendering (as used by `toISOString`). -/
def pad2 (n : Nat) : List Char := [digitChar (n / 10), digitChar n]

/-- Three-digit zero-padded decimal rendering (milliseconds field). -/
def pad3 (n : Nat) : List Char := [digitChar (n / 100), digitChar (n / 10), digitChar n]

/-- Four-digit zero-padded decimal rendering (year field). -/
def pad4 (n : Nat) : List Char :=
  [digitChar (n / 1000), digitChar (n / 100), digitChar (n / 10), digitChar n]

/-- Character list of `Date.prototype.toISOString()`:
`YYYY-MM-DDTHH:mm:ss.sssZ` (model of the JS builtin for years 0–9999). -/
def toISOChars (d : JSDate) : List Char :=
  pad4 d.year ++ '-' ::
    (pad2 d.month ++ '-' ::
      (pad2 d.day ++ 'T' ::
        (pad2 d.hour ++ ':' ::
          (pad2 d.minute ++ ':' ::
            (pad2 d.second ++ '.' ::
              (pad3 d.ms ++ ['Z']))))))

/-- Model of `Date.prototype.toISOString()`. -/
def toISOString (d : JSDate) : String := String.mk (toISOChars d)

/-- Pattern element for the ISO-8601 shape check: a decimal digit or a fixed
literal character. -/
inductive PatChar where
  | digit
  | lit (c : Char)

/-- The ISO-8601 extended-format pattern `####-##-##T##:##:##.###Z`. -/
def isoPattern : List PatChar :=
  [.digit, .digit, .digit, .digit, .lit '-', .digit, .digit, .lit '-',
   .digit, .digit, .lit 'T', .digit, .digit, .lit ':', .digit, .digit,
   .lit ':', .digit, .digit, .lit '.', .digit, .digit, .digit, .lit 'Z']

/-- Character-by-character pattern matching. -/
def matchesPattern : List PatChar → List Char → Bool
  | [], [] => true
  | .digit :: ps, c :: cs => c.isDigit && matchesPattern ps cs
  | .lit p :: ps, c :: cs => (p = c) && matchesPattern ps cs
  | _, _ => false

/-- Validity check for an ISO-8601 `YYYY-MM-DDTHH:mm:ss.sssZ` timestamp. -/
def isISO8601 (s : String) : Bool := matchesPattern isoPattern s.data

theorem digitChar_isDigit (n : Nat) : (digitChar n).isDigit = true := by
  have h : ∀ m : Nat, m < 10 → (Char.ofNat (48 + m)).isDigit = true := by decide
  exact h (n % 10) (Nat.mod_lt _ (by norm_num))

theorem isISO8601_toISOString (d : JSDate) : isISO8601 (toISOString d) = true := by
  simp [isISO8601, toISOString, toISOChars, isoPattern, pad4, pad3, pad2,
    matchesPattern, digitChar_isDigit]

/-- Socket ready states (`WebSocket.readyState`). -/
inductive ReadyState where
  | connecting
  | opened
  | closing
  | closed
deriving DecidableEq

/-- A Transport handle, characterized in the model by its ready state. -/
structure Socket where
  readyState : ReadyState
deriving DecidableEq

/-- App lifecycle states reported by the App Lifecycle Monitor
(`AppStateStatus`). -/
inductive AppStateStatus where
  | active
  | inactive
  | background
deriving DecidableEq

/-- A registered message listener.  Invoking it either succeeds (`none`) or
throws an exception carrying a message (`some err`), which the manager
catches. -/
abbrev Listener := JValue → Option String

/-- Observable effects performed by the Connection Manager on its
collaborators: the Transport, the timer service, and the console. -/
inductive Eff where
  | openTransport
  | closeTransport (code : Nat)
  | writeFrame (env : JObj)
  | scheduleTimer (id : Nat) (delay : ℚ)
  | cancelTimer (id : Nat)
  | timerFired (id : Nat)
  | startPing (id : Nat)
  | cancelPing (id : Nat)
  | logWarn
  | logParseError
  | logReceived
  | invoked (i : Nat)
  | logListenerError (i : Nat)

/-- The Connection Manager's state: the `useState` cells of
`WebSocketProvider`.  `reconnectTimer` stores, along with the opaque timer
id, the `nextAttempt` value captured by the scheduled callback's closure.
`nextTimerId` is a supply of fresh timer handles. -/
structure MState where
  socket : Option Socket
  isConnected : Bool
  isConnecting : Bool
  connectionError : Option String
  lastMessage : Option JValue
  listeners : List Listener
  reconnectTimer : Option (Nat × Nat)
  pingInterval : Option Nat
  reconnectAttempts : Nat
  isNetworkAvailable : Bool
  appState : AppStateStatus
  nextTimerId : Nat

/-- `MAX_RECONNECT_ATTEMPTS = 5`. -/
def MAX_RECONNECT_ATTEMPTS : Nat := 5

/-- `BASE_RECONNECT_DELAY = 3000` milliseconds. -/
def BASE_RECONNECT_DELAY : ℚ := 3000

/-- Whether the stored socket exists and is in the `OPEN` ready state
(`socket?.readyState === WebSocket.OPEN`). -/
def isSocketOpen (s : MState) : Bool :=
  match s.socket with
  | some sock => sock.readyState = ReadyState.opened
  | none => false

/-- Pre-jitter reconnect delay:
`Math.min(30000, BASE_RECONNECT_DELAY * Math.pow(1.5, attempts))`. -/
def baseDelay (attempts : Nat) : ℚ :=
  min 30000 (BASE_RECONNECT_DELAY * (3 / 2) ^ attempts)

/-- Actual reconnect delay with jitter, where `j` is the value drawn from
`Math.random()` (so `0 ≤ j < 1`): `baseDelay * (0.8 + j * 0.4)`. -/
def reconnectDelay (attempts : Nat) (j : ℚ) : ℚ :=
  baseDelay attempts * (8 / 10 + j * (4 / 10))

/-- `stopPingInterval`: clears the liveness interval when one exists. -/
def stopPingInterval (s : MState) : MState × List Eff :=
  match s.pingInterval with
  | some pid => ({ s with pingInterval := none }, [Eff.cancelPing pid])
  | none => (s, [])

/-- `cleanupConnection`: stops the liveness interval and clears any pending
reconnect timer. -/
def cleanupConnection (s : MState) : MState × List Eff :=
  let (s1, e1) := stopPingInterval s
  match s1.reconnectTimer with
  | some (tid, _) => ({ s1 with reconnectTimer := none }, e1 ++ [Eff.cancelTimer tid])
  | none => (s1, e1)

/-- `scheduleReconnect`: clears any existing timer handle, gives up once
`reconnectAttempts ≥ MAX_RECONNECT_ATTEMPTS`, and otherwise schedules one
timer whose delay uses the current `reconnectAttempts` as exponent and whose
callback captured `nextAttempt = reconnectAttempts + 1`.  `j` is the
`Math.random()` draw used for jitter. -/
def scheduleReconnect (s : MState) (j : ℚ) : MState × List Eff :=
  let clearEffs : List Eff :=
    match s.reconnectTimer with
    | some (tid, _) => [Eff.cancelTimer tid]
    | none => []
  if s.reconnectAttempts ≥ MAX_RECONNECT_ATTEMPTS then
    (s, clearEffs)
  else
    let next := s.reconnectAttempts + 1
    let d := reconnectDelay s.reconnectAttempts j
    let tid := s.nextTimerId
    ({ s with reconnectTimer := some (tid, next), nextTimerId := tid + 1 },
     clearEffs ++ [Eff.scheduleTimer tid d])

/-- Outcome of a `connect()` call: resolved immediately, left pending until
the Transport reports open or error, or rejected immediately. -/
inductive ConnectOutcome where
  | resolved
  | pending
  | rejected (msg : String)
deriving DecidableEq

/-- `connect()`: resolves immediately when the socket is already open or a
connection attempt is in flight; rejects when no network is available;
otherwise marks the manager connecting, clears the prior error, and opens a
new Transport. -/
def connect (s : MState) : MState × List Eff × ConnectOutcome :=
  if isSocketOpen s then
    (s, [], ConnectOutcome.resolved)
  else if s.isConnecting then
    (s, [], ConnectOutcome.resolved)
  else if !s.isNetworkAvailable then
    (s, [], ConnectOutcome.rejected "No network connection available")
  else
    ({ s with isConnecting := true, connectionError := none },
     [Eff.openTransport], ConnectOutcome.pending)

/-- `onopen` handler: records the open socket, marks the manager connected,
resets the attempt counter, and (re)starts the liveness interval. -/
def handleOpen (s : MState) : MState × List Eff :=
  let s1 := { s with socket := some ⟨ReadyState.opened⟩, isConnected := true,
                     isConnecting := false, reconnectAttempts := 0 }
  let (s2, e1) := stopPingInterval s1
  let pid := s2.nextTimerId
  ({ s2 with pingInterval := some pid, nextTimerId := pid + 1 },
   e1 ++ [Eff.startPing pid])

/-- `onclose` handler: drops the socket and connection flags, cleans up
timers, and schedules a reconnect only when the close code is not 1000, the
app is in the foreground, and the network is available. -/
def handleClose (s : MState) (code : Nat) (j : ℚ) : MState × List Eff :=
  let s1 := { s with isConnected := false, isConnecting := false, socket := none }
  let (s2, e1) := cleanupConnection s1
  if code ≠ 1000 ∧ s2.appState = AppStateStatus.active ∧ s2.isNetworkAvailable then
    let (s3, e2) := scheduleReconnect s2 j
    (s3, e1 ++ e2)
  else
    (s2, e1)

/-- Firing of the pending reconnect timer: the callback first sets the
attempt counter to the `nextAttempt` value it captured at schedule time,
then calls `connect()`. -/
def fireReconnect (s : MState) : MState × List Eff × ConnectOutcome :=
  match s.reconnectTimer with
  | some (tid, next) =>
      let (s1, effs, out) := connect { s with reconnectAttempts := next }
      (s1, Eff.timerFired tid :: effs, out)
  | none => (s, [], ConnectOutcome.resolved)

/-- `disconnect()`: cleans up the reconnect and liveness timers, closes the
Transport with code 1000 when it is open, and drops the socket. -/
def disconnect (s : MState) : MState × List Eff :=
  let (s1, e1) := cleanupConnection s
  let e2 : List Eff := if isSocketOpen s1 then [Eff.closeTransport 1000] else []
  ({ s1 with socket := none, isConnected := false }, e1 ++ e2)

/-- `send(type, data)`: returns `false` with a warning when the socket is
not open; otherwise serializes the envelope, writes it to the Transport,
and returns `true`.  `now` is the wall-clock date used for the timestamp. -/
def send (s : MState) (t : String) (data : JObj) (now : JSDate) :
    MState × List Eff × Bool :=
  if !isSocketOpen s then
    (s, [Eff.logWarn], false)
  else
    (s, [Eff.writeFrame (mkEnvelope t data (toISOString now))], true)

/-- `sendLocation(latitude, longitude)`: `send('location', { latitude,
longitude })`. -/
def sendLocation (s : MState) (latitude longitude : ℚ) (now : JSDate) :
    MState × List Eff × Bool :=
  send s "location" [("latitude", JValue.num latitude),
                     ("longitude", JValue.num longitude)] now

/-- An inbound text frame: either not valid JSON, or the JSON value it
parses to (`JSON.parse` is modelled by this distinction). -/
inductive Frame where
  | malformed (raw : String)
  | wellFormed (v : JValue)

/-- Model of `JSON.parse` on an inbound frame. -/
def parseFrame : Frame → Option JValue
  | Frame.malformed _ => none
  | Frame.wellFormed v => some v

/-- Reading `message.type` on a parsed JSON value.  Property access on
`null` throws a TypeError (caught by the message handler's catch block);
on an object it yields the `type` field, and on any other value it yields
`undefined` (modelled `none`) without throwing. -/
def messageType : JValue → Except String (Option JValue)
  | JValue.jnull => Except.error "TypeError: cannot read properties of null"
  | JValue.obj o => Except.ok (jLookup o "type")
  | _ => Except.ok none

/-- Delivery loop over the listener list starting at index `i`: each
listener is invoked; a thrown exception is caught and logged and delivery
continues with the rest. -/
def deliverFrom (i : Nat) (ls : List Listener) (m : JValue) : List Eff :=
  match ls with
  | [] => []
  | l :: rest =>
      Eff.invoked i ::
        ((match l m with
          | some _ => [Eff.logListenerError i]
          | none => []) ++ deliverFrom (i + 1) rest m)

/-- Whether a parsed message's `type` is the liveness traffic suppressed
from verbose logging (`'pong'` or `'server_ping'`). -/
def isLivenessType : Option JValue → Bool
  | some (JValue.str t) => t = "pong" || t = "server_ping"
  | _ => false

/-- `onmessage` handler: the whole body runs inside one try block, so both
a parse failure and the TypeError thrown by reading `message.type` on a
parsed `null` are logged by the same catch and the frame is dropped with no
state change; otherwise the message is logged (unless it is liveness
traffic), stored as `lastMessage`, and delivered to every listener. -/
def handleMessage (s : MState) (f : Frame) : MState × List Eff :=
  match parseFrame f with
  | none => (s, [Eff.logParseError])
  | some m =>
      match messageType m with
      | Except.error _ => (s, [Eff.logParseError])
      | Except.ok t =>
          let logEffs : List Eff :=
            if isLivenessType t then []
            else [Eff.logReceived]
          ({ s with lastMessage := some m },
           logEffs ++ deliverFrom 0 s.listeners m)

/-- Whether an effect is a Transport `open` call. -/
def isOpenEff : Eff → Bool
  | Eff.openTransport => true
  | _ => false

/-- Number of Transport `open` calls in an effect trace. -/
def countOpens (effs : List Eff) : Nat := effs.countP isOpenEff

/-- Whether an effect is the scheduling of a reconnect timer. -/
def isScheduleEff : Eff → Bool
  | Eff.scheduleTimer _ _ => true
  | _ => false

/-- Number of reconnect timers scheduled in an effect trace. -/
def countSchedules (effs : List Eff) : Nat := effs.countP isScheduleEff

/-- The delays of the reconnect timers scheduled in an effect trace, in
order. -/
def scheduledDelays (effs : List Eff) : List ℚ :=
  effs.filterMap fun e =>
    match e with
    | Eff.scheduleTimer _ d => some d
    | _ => none

/-- The reconnect timers still outstanding at the end of an effect trace:
scheduled and neither cancelled nor fired. -/
def outstandingReconnects (effs : List Eff) : List Nat :=
  effs.foldl (fun acc e => match e with
    | Eff.scheduleTimer tid _ => acc ++ [tid]
    | Eff.cancelTimer tid => acc.filter (· ≠ tid)
    | Eff.timerFired tid => acc.filter (· ≠ tid)
    | _ => acc) []

/-- A Disconnected manager with network available and the app in the
foreground: the state right after provider mount. -/
def initialState : MState :=
  { socket := none, isConnected := false, isConnecting := false,
    connectionError := none, lastMessage := none, listeners := [],
    reconnectTimer := none, pingInterval := none, reconnectAttempts := 0,
    isNetworkAvailable := true, appState := AppStateStatus.active,
    nextTimerId := 0 }

/-- A Connected manager (socket open, foreground, network available). -/
def connState : MState :=
  { initialState with socket := some ⟨ReadyState.opened⟩, isConnected := true }

/-- One failure cycle: an abnormal close (code 1006) followed by the firing
of the reconnect timer it scheduled (whose `connect()` attempt will fail and
close again at the start of the next cycle).  Jitter is fixed at 0; the
scheduling structure does not depend on it. -/
def cycle (sj : MState × List Eff) : MState × List Eff :=
  let (s, acc) := sj
  let (s1, e1) := handleClose s 1006 0
  let (s2, e2, _) := fireReconnect s1
  (s2, acc ++ e1 ++ e2)

/-- State and accumulated trace after `n` consecutive failure cycles
starting from a Connected manager. -/
def failCycles : Nat → MState × List Eff
  | 0 => (connState, [])
  | n + 1 => cycle (failCycles n)

/-- Two abnormal closes in a row, the second arriving before the first
close's reconnect timer has fired. -/
def twoClose : MState × List Eff :=
  let (s1, e1) := handleClose connState 1006 0
  let (s2, e2) := handleClose s1 1006 0
  (s2, e1 ++ e2)

theorem connect_preserves_attempts (s : MState) :
    (connect s).1.reconnectAttempts = s.reconnectAttempts := by
  unfold connect
  split_ifs <;> rfl

theorem jLookup_setKey_same (o : JObj) (k : String) (v : JValue) :
    jLookup (setKey o k v) k = some v := by
  induction o with
  | nil => simp [setKey, jLookup]
  | cons p rest ih =>
      obtain ⟨k', v'⟩ := p
      by_cases h : k' = k <;> simp [setKey, jLookup, h, ih]

theorem jLookup_setKey_other (o : JObj) (k k' : String) (v : JValue)
    (hne : k' ≠ k) : jLookup (setKey o k' v) k = jLookup o k := by
  induction o with
  | nil => simp [setKey, jLookup, hne]
  | cons p rest ih =>
      obtain ⟨k'', v''⟩ := p
      by_cases h : k'' = k' <;> by_cases h2 : k'' = k <;>
        simp_all [setKey, jLookup]

theorem jLookup_spreadOnto (data : JObj) :
    ∀ (base : JObj) (k : String),
      jLookup (spreadOnto base data) k =
        match jLookupLast data k with
        | some w => some w
        | none => jLookup base k := by
  induction data with
  | nil => intro base k; simp [spreadOnto, jLookupLast]
  | cons p rest ih =>
      intro base k
      obtain ⟨k', v'⟩ := p
      have hfold : spreadOnto base ((k', v') :: rest) =
          spreadOnto (setKey base k' v') rest := by
        simp [spreadOnto]
      rw [hfold, ih]
      by_cases h : k' = k
      · subst h
        cases hr : jLookupLast rest k' <;>
          simp [jLookupLast, hr, jLookup_setKey_same]
      · cases hr : jLookupLast rest k <;>
          simp [jLookupLast, hr, jLookup_setKey_other base k k' v' h, h]

theorem invoked_mem_deliverFrom (ls : List Listener) (m : JValue) :
    ∀ (i0 i : Nat), i < ls.length →
      Eff.invoked (i0 + i) ∈ deliverFrom i0 ls m := by
  induction ls with
  | nil => intro i0 i h; simp at h
  | cons l rest ih =>
      intro i0 i h
      cases i with
      | zero => simp [deliverFrom]
      | succ n =>
          have hn : n < rest.length := by simpa using h
          have := ih (i0 + 1) n hn
          simp only [deliverFrom, List.mem_cons, List.mem_append]
          right
          right
          simpa [Nat.add_assoc, Nat.add_comm 1 n] using this

/-- C1: `connect()` is idempotent and gated on network availability: when
the Transport is already open it resolves immediately with no effect; when a
connection attempt is already in flight it resolves immediately with no
effect; when neither holds and no network is available it rejects without
opening a Transport; and two `connect()` calls in rapid succession from a
Disconnected state perform exactly one Transport open. -/
theorem connect_idempotent_and_gated :
    (∀ s : MState, isSocketOpen s = true →
        connect s = (s, [], ConnectOutcome.resolved)) ∧
    (∀ s : MState, s.isConnecting = true →
        connect s = (s, [], ConnectOutcome.resolved)) ∧
    (∀ s : MState, isSocketOpen s = false → s.isConnecting = false →
        s.isNetworkAvailable = false →
        connect s = (s, [], ConnectOutcome.rejected "No network connection available")) ∧
    (∀ s : MState, s.socket = none → s.isConnecting = false →
        s.isNetworkAvailable = true →
        countOpens ((connect s).2.1 ++ (connect (connect s).1).2.1) = 1) := by
  refine ⟨?_, ?_, ?_, ?_⟩
  · intro s h
    simp [connect, h]
  · intro s h
    by_cases ho : isSocketOpen s <;> simp [connect, h, ho]
  · intro s h1 h2 h3
    simp [connect, h1, h2, h3]
  · intro s hs hc hn
    have ho : isSocketOpen s = false := by simp [isSocketOpen, hs]
    simp [connect, isSocketOpen, hs, hc, hn, countOpens, List.countP, List.countP.go,
      isOpenEff]

/-- C1 witness: two immediate `connect()` calls from the initial
Disconnected state open exactly one Transport. -/
theorem connect_idempotent_and_gated_witness :
    countOpens ((connect initialState).2.1 ++
      (connect (connect initialState).1).2.1) = 1 :=
  connect_idempotent_and_gated.2.2.2 initialState rfl rfl rfl

/-- C2: `send(type, payload)` is total and returns a success boolean: when
the socket is not open it returns `false` having performed no Transport
write (only a warning log), and when the socket is open it returns `true`
having performed exactly one Transport write of the serialized envelope. -/
theorem send_gating :
    (∀ (s : MState) (t : String) (data : JObj) (now : JSDate),
        isSocketOpen s = false →
        send s t data now = (s, [Eff.logWarn], false)) ∧
    (∀ (s : MState) (t : String) (data : JObj) (now : JSDate),
        isSocketOpen s = true →
        send s t data now =
          (s, [Eff.writeFrame (mkEnvelope t data (toISOString now))], true)) := by
  constructor
  · intro s t data now h
    simp [send, h]
  · intro s t data now h
    simp [send, h]

/-- C2 witness: a concrete send while Disconnected returns `false` with no
write, and a concrete send while Connected returns `true` with one write. -/
theorem send_gating_witness :
    send initialState "location" [] ⟨2024, 5, 17, 12, 30, 45, 123⟩ =
      (initialState, [Eff.logWarn], false) ∧
    send connState "location" [] ⟨2024, 5, 17, 12, 30, 45, 123⟩ =
      (connState,
       [Eff.writeFrame (mkEnvelope "location" []
          (toISOString ⟨2024, 5, 17, 12, 30, 45, 123⟩))], true) :=
  ⟨send_gating.1 initialState "location" [] ⟨2024, 5, 17, 12, 30, 45, 123⟩ rfl,
   send_gating.2 connState "location" [] ⟨2024, 5, 17, 12, 30, 45, 123⟩ rfl⟩

/-- C4: the reconnect delay is `min(30000, 3000 * 1.5^attempts)` scaled by
the jitter factor `0.8 + random * 0.4` with `random ∈ [0, 1)`: for attempts
0, 1, 2, 3 the pre-jitter base delays are exactly 3000, 4500, 6750 and
10125 ms, and for every attempts value the actual delay lies between
`0.8 × base` and `1.2 × base`. -/
theorem backoff_delay_formula :
    baseDelay 0 = 3000 ∧ baseDelay 1 = 4500 ∧
    baseDelay 2 = 6750 ∧ baseDelay 3 = 10125 ∧
    ∀ (a : Nat) (j : ℚ), 0 ≤ j → j < 1 →
      8 / 10 * baseDelay a ≤ reconnectDelay a j ∧
      reconnectDelay a j ≤ 12 / 10 * baseDelay a := by
  refine ⟨by norm_num [baseDelay, BASE_RECONNECT_DELAY],
          by norm_num [baseDelay, BASE_RECONNECT_DELAY],
          by norm_num [baseDelay, BASE_RECONNECT_DELAY],
          by norm_num [baseDelay, BASE_RECONNECT_DELAY], ?_⟩
  intro a j hj hj1
  have hb : (0 : ℚ) ≤ baseDelay a := by
    unfold baseDelay BASE_RECONNECT_DELAY
    positivity
  unfold reconnectDelay
  constructor <;>
    nlinarith [mul_nonneg hb hj, mul_nonneg hb (sub_nonneg.mpr hj1.le)]

/-- C4 witness: with attempts 2 and `random = 1/2`, the actual delay lies
within the stated jitter band around the base delay. -/
theorem backoff_delay_formula_witness :
    8 / 10 * baseDelay 2 ≤ reconnectDelay 2 (1 / 2) ∧
    reconnectDelay 2 (1 / 2) ≤ 12 / 10 * baseDelay 2 :=
  backoff_delay_formula.2.2.2.2 2 (1 / 2) (by norm_num) (by norm_num)

theorem cleanupConnection_state (s : MState) :
    (cleanupConnection s).1 =
      { s with pingInterval := none, reconnectTimer := none } := by
  obtain ⟨so, c1, c2, ce, lm, ls, rt, pi, ra, na, ap, nt⟩ := s
  simp only [cleanupConnection, stopPingInterval]
  cases pi <;> cases rt <;> rfl

theorem cleanupConnection_no_schedule (s : MState) :
    countSchedules (cleanupConnection s).2 = 0 := by
  obtain ⟨so, c1, c2, ce, lm, ls, rt, pi, ra, na, ap, nt⟩ := s
  simp only [cleanupConnection, stopPingInterval]
  cases pi <;> cases rt <;> rfl

theorem cleanupConnection_no_close (s : MState) (c : Nat) :
    Eff.closeTransport c ∉ (cleanupConnection s).2 := by
  obtain ⟨so, c1, c2, ce, lm, ls, rt, pi, ra, na, ap, nt⟩ := s
  simp only [cleanupConnection, stopPingInterval]
  cases pi <;> cases rt <;> simp

theorem cleanupConnection_cancels_reconnect (s : MState) (tid na : Nat)
    (h : s.reconnectTimer = some (tid, na)) :
    Eff.cancelTimer tid ∈ (cleanupConnection s).2 := by
  obtain ⟨so, c1, c2, ce, lm, ls, rt, pi, ra, na, ap, nt⟩ := s
  simp only at h
  subst h
  simp only [cleanupConnection, stopPingInterval]
  cases pi <;> simp

theorem cleanupConnection_cancels_ping (s : MState) (pid : Nat)
    (h : s.pingInterval = some pid) :
    Eff.cancelPing pid ∈ (cleanupConnection s).2 := by
  obtain ⟨so, c1, c2, ce, lm, ls, rt, pi, ra, na, ap, nt⟩ := s
  simp only at h
  subst h
  simp only [cleanupConnection, stopPingInterval]
  cases rt <;> simp

theorem disconnect_effs (s : MState) :
    (disconnect s).2 = (cleanupConnection s).2 ++
      (if isSocketOpen s then [Eff.closeTransport 1000] else []) := by
  have hopen : isSocketOpen (cleanupConnection s).1 = isSocketOpen s := by
    rw [cleanupConnection_state]
    rfl
  simp only [disconnect, hopen]

/-- C3: `disconnect()` cancels the pending reconnect timer and the liveness
timer, closes the Transport with code 1000 (and with no other code), and
schedules no reconnect; and the close handler schedules a reconnect only
for a close code other than 1000 while the app is active and the network is
available — a close with code 1000, or any close while backgrounded or
without network, schedules none. -/
theorem disconnect_no_auto_reconnect :
    (∀ (s : MState) (tid na : Nat), s.reconnectTimer = some (tid, na) →
        Eff.cancelTimer tid ∈ (disconnect s).2) ∧
    (∀ (s : MState) (pid : Nat), s.pingInterval = some pid →
        Eff.cancelPing pid ∈ (disconnect s).2) ∧
    (∀ s : MState, isSocketOpen s = true →
        Eff.closeTransport 1000 ∈ (disconnect s).2) ∧
    (∀ (s : MState) (c : Nat), Eff.closeTransport c ∈ (disconnect s).2 → c = 1000) ∧
    (∀ s : MState, countSchedules (disconnect s).2 = 0) ∧
    (∀ (s : MState) (code : Nat) (j : ℚ),
        code = 1000 ∨ s.appState ≠ AppStateStatus.active ∨ s.isNetworkAvailable = false →
        countSchedules (handleClose s code j).2 = 0) ∧
    (∀ (s : MState) (code : Nat) (j : ℚ),
        countSchedules (handleClose s code j).2 ≠ 0 →
        code ≠ 1000 ∧ s.appState = AppStateStatus.active ∧
          s.isNetworkAvailable = true) := by
  have hclose : ∀ (s : MState) (code : Nat) (j : ℚ),
      code = 1000 ∨ s.appState ≠ AppStateStatus.active ∨ s.isNetworkAvailable = false →
      countSchedules (handleClose s code j).2 = 0 := by
    intro s code j h
    simp only [handleClose]
    split
    next hc =>
      exfalso
      obtain ⟨h1, h2, h3⟩ := hc
      rw [cleanupConnection_state] at h2 h3
      simp only at h2 h3
      rcases h with h | h | h
      · exact h1 h
      · exact h h2
      · rw [h] at h3
        exact Bool.false_ne_true h3
    next hc =>
      exact cleanupConnection_no_schedule _
  refine ⟨?_, ?_, ?_, ?_, ?_, hclose, ?_⟩
  · intro s tid na h
    rw [disconnect_effs]
    exact List.mem_append_left _ (cleanupConnection_cancels_reconnect s tid na h)
  · intro s pid h
    rw [disconnect_effs]
    exact List.mem_append_left _ (cleanupConnection_cancels_ping s pid h)
  · intro s h
    rw [disconnect_effs, h]
    simp
  · intro s c h
    rw [disconnect_effs] at h
    rcases List.mem_append.mp h with h1 | h1
    · exact absurd h1 (cleanupConnection_no_close s c)
    · by_cases ho : isSocketOpen s
      · simp [ho] at h1
        exact h1
      · simp [ho] at h1
  · intro s
    rw [countSchedules, disconnect_effs, List.countP_append]
    have h1 := cleanupConnection_no_schedule s
    rw [countSchedules] at h1
    rw [h1]
    by_cases ho : isSocketOpen s <;> simp [ho, isScheduleEff]
  · intro s code j h
    by_cases h1 : code = 1000
    · exact absurd (hclose s code j (Or.inl h1)) h
    by_cases h2 : s.appState = AppStateStatus.active
    · by_cases h3 : s.isNetworkAvailable = true
      · exact ⟨h1, h2, h3⟩
      · have h3' : s.isNetworkAvailable = false := by
          cases hb : s.isNetworkAvailable
          · rfl
          · exact absurd hb h3
        exact absurd (hclose s code j (Or.inr (Or.inr h3'))) h
    · exact absurd (hclose s code j (Or.inr (Or.inl h2))) h

/-- A Connected manager that additionally holds a pending reconnect timer
(id 7) and a live ping interval (id 9). -/
def busyConnState : MState :=
  { connState with reconnectTimer := some (7, 3), pingInterval := some 9 }

/-- C3 witness: from a Connected state with a pending reconnect timer and a
live ping interval, `disconnect()` cancels both timers and closes the
Transport with code 1000; and a close with code 1000 from the Connected
state schedules no reconnect. -/
theorem disconnect_no_auto_reconnect_witness :
    Eff.cancelTimer 7 ∈ (disconnect busyConnState).2 ∧
    Eff.cancelPing 9 ∈ (disconnect busyConnState).2 ∧
    Eff.closeTransport 1000 ∈ (disconnect busyConnState).2 ∧
    countSchedules (handleClose connState 1000 0).2 = 0 :=
  ⟨disconnect_no_auto_reconnect.1 busyConnState 7 3 rfl,
   disconnect_no_auto_reconnect.2.1 busyConnState 9 rfl,
   disconnect_no_auto_reconnect.2.2.1 busyConnState rfl,
   disconnect_no_auto_reconnect.2.2.2.2.2.1 connState 1000 0 (Or.inl rfl)⟩

/-- C5: after five consecutive abnormal closes with no successful open in
between, the attempt counter has reached `MAX_RECONNECT_ATTEMPTS = 5`,
exactly five reconnect timers were scheduled, and a sixth abnormal close
schedules none; and any successful Transport open resets the attempt
counter to 0. -/
theorem max_attempts_ceiling_and_reset :
    (failCycles 5).1.reconnectAttempts = 5 ∧
    countSchedules (failCycles 5).2 = 5 ∧
    countSchedules (handleClose (failCycles 5).1 1006 0).2 = 0 ∧
    (∀ s : MState, (handleOpen s).1.reconnectAttempts = 0) := by
  refine ⟨rfl, rfl, rfl, ?_⟩
  intro s
  simp only [handleOpen, stopPingInterval]
  cases s.pingInterval <;> rfl

/-- C8 counterexample: scheduling a reconnect from the initial state does
schedule a timer but leaves the attempts counter unchanged at 0 — the
counter does not increment at the moment the timer is scheduled. -/
theorem attempts_increment_at_schedule_cex :
    countSchedules (scheduleReconnect initialState 0).2 = 1 ∧
    (scheduleReconnect initialState 0).1.reconnectAttempts ≠
      initialState.reconnectAttempts + 1 :=
  ⟨rfl, by decide⟩

/-- C8 (amended): the attempts counter is unchanged when the reconnect
timer is scheduled and increments when the timer fires (at the start of its
callback, before `connect()` is invoked); since the delay is computed at
schedule time from the current counter, the nth consecutively scheduled
attempt computes its delay with exponent n−1, as the delays of the five
consecutive scheduled attempts show. -/
theorem attempts_increment_on_fire :
    (∀ (s : MState) (j : ℚ), s.reconnectAttempts < MAX_RECONNECT_ATTEMPTS →
      (scheduleReconnect s j).1.reconnectAttempts = s.reconnectAttempts ∧
      Eff.scheduleTimer s.nextTimerId (reconnectDelay s.reconnectAttempts j) ∈
        (scheduleReconnect s j).2 ∧
      (fireReconnect (scheduleReconnect s j).1).1.reconnectAttempts =
        s.reconnectAttempts + 1) ∧
    scheduledDelays (failCycles 5).2 =
      [reconnectDelay 0 0, reconnectDelay 1 0, reconnectDelay 2 0,
       reconnectDelay 3 0, reconnectDelay 4 0] := by
  refine ⟨?_, rfl⟩
  intro s j h
  have hge : ¬ s.reconnectAttempts ≥ MAX_RECONNECT_ATTEMPTS := Nat.not_le.mpr h
  refine ⟨?_, ?_, ?_⟩
  · unfold scheduleReconnect
    simp [hge]
  · unfold scheduleReconnect
    simp [hge]
  · unfold scheduleReconnect fireReconnect
    simp [hge, connect_preserves_attempts]

/-- C8 amended witness: from the initial state with jitter 0, scheduling
leaves the counter at 0 and the fired timer raises it to 1. -/
theorem attempts_increment_on_fire_witness :
    (scheduleReconnect initialState 0).1.reconnectAttempts =
      initialState.reconnectAttempts ∧
    Eff.scheduleTimer initialState.nextTimerId
      (reconnectDelay initialState.reconnectAttempts 0) ∈
      (scheduleReconnect initialState 0).2 ∧
    (fireReconnect (scheduleReconnect initialState 0).1).1.reconnectAttempts =
      initialState.reconnectAttempts + 1 :=
  attempts_increment_on_fire.1 initialState 0 (by decide)

/-- C9: every scheduling of a reconnect first cancels any existing pending
reconnect timer; two abnormal closes occurring before any timer fires
schedule two timers of which only the most recent (id 1) remains
outstanding, the attempts counter still being 0, and it increments exactly
once (to 1) when the surviving timer fires. -/
theorem single_outstanding_reconnect_timer :
    (∀ (s : MState) (j : ℚ) (tid na : Nat),
        s.reconnectTimer = some (tid, na) →
        Eff.cancelTimer tid ∈ (scheduleReconnect s j).2) ∧
    countSchedules twoClose.2 = 2 ∧
    outstandingReconnects twoClose.2 = [1] ∧
    twoClose.1.reconnectAttempts = 0 ∧
    (fireReconnect twoClose.1).1.reconnectAttempts = 1 := by
  refine ⟨?_, rfl, rfl, rfl, rfl⟩
  intro s j tid na h
  unfold scheduleReconnect
  simp only [h]
  split <;> simp

/-- C9 witness: a state holding a pending reconnect timer has that timer
cancelled by the next scheduling call. -/
theorem single_outstanding_reconnect_timer_witness :
    Eff.cancelTimer 4 ∈
      (scheduleReconnect { initialState with reconnectTimer := some (4, 2) } 0).2 :=
  single_outstanding_reconnect_timer.1 _ 0 4 2 rfl

theorem listener_error_logged (ls : List Listener) (m : JValue) :
    ∀ (i0 i : Nat) (l : Listener) (err : String), ls.get? i = some l →
      l m = some err → Eff.logListenerError (i0 + i) ∈ deliverFrom i0 ls m := by
  induction ls with
  | nil => intro i0 i l err h _; simp at h
  | cons hd rest ih =>
      intro i0 i l err h herr
      cases i with
      | zero =>
          simp at h
          subst h
          simp [deliverFrom, herr]
      | succ n =>
          have hmem := ih (i0 + 1) n l err (by simpa using h) herr
          simp only [deliverFrom, List.mem_cons, List.mem_append]
          right
          right
          simpa [Nat.add_assoc, Nat.add_comm 1 n] using hmem

/-- C6 (amended): a malformed inbound frame — and likewise the frame
`"null"`, which parses but whose `message.type` access throws inside the
same try block — is logged and dropped with no exception, no state change,
no `lastMessage` update and no listener delivery; a well-formed frame
parsing to anything other than `null` becomes `lastMessage` and is
delivered to every registered listener, a listener that throws having its
error caught and logged without preventing delivery to the others or the
`lastMessage` update. -/
theorem inbound_frame_handling :
    (∀ (s : MState) (raw : String),
        handleMessage s (Frame.malformed raw) = (s, [Eff.logParseError])) ∧
    (∀ s : MState,
        handleMessage s (Frame.wellFormed JValue.jnull) =
          (s, [Eff.logParseError])) ∧
    (∀ (s : MState) (v : JValue), v ≠ JValue.jnull →
        (handleMessage s (Frame.wellFormed v)).1 =
          { s with lastMessage := some v }) ∧
    (∀ (s : MState) (v : JValue) (i : Nat), v ≠ JValue.jnull →
        i < s.listeners.length →
        Eff.invoked i ∈ (handleMessage s (Frame.wellFormed v)).2) ∧
    (∀ (s : MState) (v : JValue) (i : Nat) (l : Listener) (err : String),
        v ≠ JValue.jnull → s.listeners.get? i = some l → l v = some err →
        Eff.logListenerError i ∈ (handleMessage s (Frame.wellFormed v)).2) := by
  refine ⟨fun s raw => rfl, fun s => rfl, ?_, ?_, ?_⟩
  · intro s v h
    cases v <;> first | exact absurd rfl h | rfl
  · intro s v i h hi
    have hmem := invoked_mem_deliverFrom s.listeners v 0 i hi
    rw [Nat.zero_add] at hmem
    cases v <;> first
      | exact absurd rfl h
      | (simp only [handleMessage, parseFrame, messageType]
         exact List.mem_append_right _ hmem)
  · intro s v i l err h hl herr
    have hmem := listener_error_logged s.listeners v 0 i l err hl herr
    rw [Nat.zero_add] at hmem
    cases v <;> first
      | exact absurd rfl h
      | (simp only [handleMessage, parseFrame, messageType]
         exact List.mem_append_right _ hmem)

/-- A listener that always throws. -/
def throwingListener : Listener := fun _ => some "listener boom"

/-- A listener that never throws. -/
def quietListener : Listener := fun _ => none

/-- A Connected manager with two registered listeners, the first of which
throws on every invocation. -/
def listenerFixture : MState :=
  { connState with listeners := [throwingListener, quietListener] }

/-- C6 witness: with a throwing listener at index 0 and a quiet listener at
index 1, an inbound message still updates `lastMessage`, still reaches the
listener at index 1, and the thrown error is logged. -/
theorem inbound_frame_handling_witness :
    (handleMessage listenerFixture (Frame.wellFormed (JValue.str "hello"))).1 =
      { listenerFixture with lastMessage := some (JValue.str "hello") } ∧
    Eff.invoked 1 ∈
      (handleMessage listenerFixture (Frame.wellFormed (JValue.str "hello"))).2 ∧
    Eff.logListenerError 0 ∈
      (handleMessage listenerFixture (Frame.wellFormed (JValue.str "hello"))).2 :=
  ⟨inbound_frame_handling.2.2.1 listenerFixture (JValue.str "hello")
     (fun h => nomatch h),
   inbound_frame_handling.2.2.2.1 listenerFixture (JValue.str "hello") 1
     (fun h => nomatch h) (by decide),
   inbound_frame_handling.2.2.2.2 listenerFixture (JValue.str "hello") 0
     throwingListener "listener boom" (fun h => nomatch h) rfl rfl⟩

/-- C6 counterexample: the inbound text frame `"null"` parses successfully
(to JSON `null`), yet the handler drops it exactly like a parse failure:
the manager state — in particular `lastMessage` — is unchanged and the two
registered listeners are not invoked, contrary to the claim that every
successfully parsed message becomes `lastMessage` and is delivered to every
registered listener. -/
theorem inbound_null_frame_cex :
    parseFrame (Frame.wellFormed JValue.jnull) = some JValue.jnull ∧
    listenerFixture.listeners.length = 2 ∧
    (handleMessage listenerFixture (Frame.wellFormed JValue.jnull)).1 =
      listenerFixture ∧
    (handleMessage listenerFixture (Frame.wellFormed JValue.jnull)).2 =
      [Eff.logParseError] :=
  ⟨rfl, rfl, rfl, rfl⟩

/-- The envelope produced by `sendLocation(48.8584, 2.2945)` at date `d`. -/
def locEnvelope (d : JSDate) : JObj :=
  mkEnvelope "location"
    [("latitude", JValue.num (48.8584 : ℚ)),
     ("longitude", JValue.num (2.2945 : ℚ))] (toISOString d)

/-- C7: while Connected, `sendLocation(48.8584, 2.2945)` succeeds and
produces exactly one outbound frame whose parsed JSON has
`type = "location"`, `latitude = 48.8584`, `longitude = 2.2945`, and a
valid ISO-8601 timestamp string. -/
theorem envelope_shape_roundtrip (s : MState) (d : JSDate)
    (h : isSocketOpen s = true) :
    (sendLocation s (48.8584 : ℚ) (2.2945 : ℚ) d).2.2 = true ∧
    (sendLocation s (48.8584 : ℚ) (2.2945 : ℚ) d).2.1 =
      [Eff.writeFrame (locEnvelope d)] ∧
    jLookup (locEnvelope d) "type" = some (JValue.str "location") ∧
    jLookup (locEnvelope d) "latitude" = some (JValue.num (48.8584 : ℚ)) ∧
    jLookup (locEnvelope d) "longitude" = some (JValue.num (2.2945 : ℚ)) ∧
    jLookup (locEnvelope d) "timestamp" = some (JValue.str (toISOString d)) ∧
    isISO8601 (toISOString d) = true := by
  refine ⟨?_, ?_, rfl, rfl, rfl, rfl, isISO8601_toISOString d⟩
  · simp [sendLocation, send, h]
  · simp [sendLocation, send, h, locEnvelope]

/-- The sample wall-clock date 2024-05-17T12:30:45.123Z. -/
def sampleDate : JSDate := ⟨2024, 5, 17, 12, 30, 45, 123⟩

/-- C7 witness: the envelope facts at a concrete Connected state and
date. -/
theorem envelope_shape_roundtrip_witness :
    (sendLocation connState (48.8584 : ℚ) (2.2945 : ℚ) sampleDate).2.2 = true ∧
    (sendLocation connState (48.8584 : ℚ) (2.2945 : ℚ) sampleDate).2.1 =
      [Eff.writeFrame (locEnvelope sampleDate)] ∧
    jLookup (locEnvelope sampleDate) "type" = some (JValue.str "location") ∧
    jLookup (locEnvelope sampleDate) "latitude" =
      some (JValue.num (48.8584 : ℚ)) ∧
    jLookup (locEnvelope sampleDate) "longitude" =
      some (JValue.num (2.2945 : ℚ)) ∧
    jLookup (locEnvelope sampleDate) "timestamp" =
      some (JValue.str (toISOString sampleDate)) ∧
    isISO8601 (toISOString sampleDate) = true :=
  envelope_shape_roundtrip connState sampleDate rfl

/-- C10: the envelope merges `type`, then the payload fields, then
`timestamp`, so the envelope's `timestamp` always equals the send-time
timestamp even when the payload contains a `timestamp` field, whereas a
`type` field in the payload overrides the `type` argument (and absent one,
the `type` argument is used). -/
theorem envelope_merge_precedence :
    (∀ (t : String) (data : JObj) (ts : String),
        jLookup (mkEnvelope t data ts) "timestamp" = some (JValue.str ts)) ∧
    (∀ (t : String) (data : JObj) (ts : String) (v : JValue),
        jLookupLast data "type" = some v →
        jLookup (mkEnvelope t data ts) "type" = some v) ∧
    (∀ (t : String) (data : JObj) (ts : String),
        jLookupLast data "type" = none →
        jLookup (mkEnvelope t data ts) "type" = some (JValue.str t)) := by
  refine ⟨?_, ?_, ?_⟩
  · intro t data ts
    exact jLookup_setKey_same _ _ _
  · intro t data ts v h
    unfold mkEnvelope
    rw [jLookup_setKey_other _ _ _ _ (by decide), jLookup_spreadOnto, h]
  · intro t data ts h
    unfold mkEnvelope
    rw [jLookup_setKey_other _ _ _ _ (by decide), jLookup_spreadOnto, h]
    rfl

/-- C10 witness: a payload that tries to spoof both `type` and `timestamp`
keeps its `type` but has its `timestamp` overwritten by the send-time
one. -/
theorem envelope_merge_precedence_witness :
    jLookup (mkEnvelope "location"
        [("type", JValue.str "spoofed"), ("timestamp", JValue.str "1999")]
        "2024-05-17T12:30:45.123Z") "timestamp" =
      some (JValue.str "2024-05-17T12:30:45.123Z") ∧
    jLookup (mkEnvelope "location"
        [("type", JValue.str "spoofed"), ("timestamp", JValue.str "1999")]
        "2024-05-17T12:30:45.123Z") "type" = some (JValue.str "spoofed") :=
  ⟨envelope_merge_precedence.1 "location" _ _,
   envelope_merge_precedence.2.1 "location" _ _ _ rfl⟩

end GPSMapCamera
